import Mathlib

/-!
Shallow embedding of the WHIP/WHEP relay example (`examples/whip-whep/main.go`)
and the media writer contract (`pkg/media/media.go`) of the pion webrtc
repository, together with proofs of the specification claims about it.

The example wires HTTP handlers `whipHandler` and `whepHandler` to a single
global `videoTrack` (a `TrackLocalStaticRTP` with H264 capability); both
handlers finish by calling `writeAnswer`, which sets the remote description,
creates and sets a local answer, blocks on the ICE gathering-complete promise,
and only then writes the `Location` header, a 201 status, and the gathered
local description as the response body.  Library machinery of the repository
that lives outside the example (`TrackLocalStaticRTP` fan-out, `Close`,
`GatheringCompletePromise`, the SDP parser) is modelled from the spec where
noted.
-/

namespace WhipWhep

/-- An RTP packet: a sequence number plus opaque payload bytes. -/
structure RTPPacket where
  sequenceNumber : Nat
  payload : List Nat
deriving DecidableEq

/-- Codec capability, as in `webrtc.RTPCodecCapability` (the fields the example
sets: mime type, clock rate, channels, fmtp line). -/
structure RTPCodecCapability where
  mimeType : String
  clockRate : Nat
  channels : Nat
  sdpFmtpLine : String
deriving DecidableEq

/-- Codec parameters registered on a media engine, as in
`webrtc.RTPCodecParameters`: a capability plus a payload type. -/
structure RTPCodecParameters where
  capability : RTPCodecCapability
  payloadType : Nat
deriving DecidableEq

/-- The H264 mime type constant (`webrtc.MimeTypeH264`). -/
def mimeTypeH264 : String := "video/H264"

/-- A registered consumer of the relay track (one WHEP session binding),
identified by its session id, with the packets delivered to it so far in
delivery order. -/
structure Consumer where
  cid : Nat
  received : List RTPPacket
deriving DecidableEq

/-- The relay track: the shared `videoTrack` (`webrtc.TrackLocalStaticRTP`),
holding its codec capability, track id and stream id from
`NewTrackLocalStaticRTP`, and the set of currently bound consumers. -/
structure RelayTrack where
  codec : RTPCodecCapability
  trackID : String
  streamID : String
  consumers : List Consumer
deriving DecidableEq

/-- Deliver one packet to every consumer in the list (append it to each
consumer's received sequence). -/
def deliverToAll (l : List Consumer) (p : RTPPacket) : List Consumer :=
  l.map fun c => { c with received := c.received ++ [p] }

/-- Modelled from the spec: `TrackLocalStaticRTP.WriteRTP` is repository code
outside `src/`; per the spec it delivers the packet to every currently
registered consumer, and a packet written while a consumer is not registered
is never delivered to it later. -/
def RelayTrack.writeRTP (t : RelayTrack) (p : RTPPacket) : RelayTrack :=
  { t with consumers := deliverToAll t.consumers p }

/-- Modelled from the spec: binding a WHEP session's sender to the track
(`AddTrack` plus transport start, repository code outside `src/`) registers a
fresh consumer that has received nothing yet. -/
def RelayTrack.registerConsumer (t : RelayTrack) (i : Nat) : RelayTrack :=
  { t with consumers := t.consumers ++ [Consumer.mk i []] }

/-- Modelled from the spec: closing a WHEP session unbinds it, removing its
consumer from the track. -/
def RelayTrack.deregisterConsumer (t : RelayTrack) (i : Nat) : RelayTrack :=
  { t with consumers := t.consumers.filter fun c => c.cid != i }

/-- The packets delivered so far to the consumer with id `i`, if registered. -/
def RelayTrack.receivedOf (t : RelayTrack) (i : Nat) : Option (List RTPPacket) :=
  (t.consumers.find? fun c => c.cid == i).map Consumer.received

/-- Whether a consumer with id `i` is currently registered. -/
def RelayTrack.hasConsumer (t : RelayTrack) (i : Nat) : Bool :=
  t.consumers.any fun c => c.cid == i

/-- Write a whole sequence of packets to the track, in order. -/
def RelayTrack.writeAll (t : RelayTrack) (ps : List RTPPacket) : RelayTrack :=
  ps.foldl RelayTrack.writeRTP t

theorem receivedOf_writeRTP (t : RelayTrack) (p : RTPPacket) (i : Nat) :
    (t.writeRTP p).receivedOf i = (t.receivedOf i).map (fun l => l ++ [p]) := by
  simp only [RelayTrack.writeRTP, RelayTrack.receivedOf, deliverToAll, List.find?_map,
    Option.map_map]
  rfl

theorem hasConsumer_writeRTP (t : RelayTrack) (p : RTPPacket) (i : Nat) :
    (t.writeRTP p).hasConsumer i = t.hasConsumer i := by
  simp only [RelayTrack.writeRTP, RelayTrack.hasConsumer, deliverToAll, List.any_map]
  rfl

theorem receivedOf_writeAll (t : RelayTrack) (ps : List RTPPacket) (i : Nat) :
    (t.writeAll ps).receivedOf i = (t.receivedOf i).map (fun l => l ++ ps) := by
  induction ps generalizing t with
  | nil =>
    show t.receivedOf i = _
    cases t.receivedOf i <;> simp
  | cons p ps ih =>
    show ((t.writeRTP p).writeAll ps).receivedOf i = _
    rw [ih, receivedOf_writeRTP]
    cases t.receivedOf i <;> simp

theorem hasConsumer_writeAll (t : RelayTrack) (ps : List RTPPacket) (i : Nat) :
    (t.writeAll ps).hasConsumer i = t.hasConsumer i := by
  induction ps generalizing t with
  | nil => rfl
  | cons p ps ih =>
    show ((t.writeRTP p).writeAll ps).hasConsumer i = _
    rw [ih, hasConsumer_writeRTP]

theorem find?_append_fresh (l : List Consumer) (i : Nat)
    (h : l.any (fun c => c.cid == i) = false) :
    (l ++ [Consumer.mk i []]).find? (fun c => c.cid == i) =
      some (Consumer.mk i []) := by
  induction l with
  | nil => rw [List.nil_append, List.find?_cons_of_pos _ (by simp)]
  | cons c cs ih =>
    simp only [List.any_cons, Bool.or_eq_false_iff] at h
    rw [List.cons_append, List.find?_cons_of_neg _ (by simp [h.1])]
    exact ih h.2

theorem receivedOf_registerConsumer_fresh (t : RelayTrack) (i : Nat)
    (h : t.hasConsumer i = false) :
    (t.registerConsumer i).receivedOf i = some [] := by
  simp only [RelayTrack.registerConsumer, RelayTrack.receivedOf]
  rw [find?_append_fresh t.consumers i h]
  rfl

/-- A session description, as in `webrtc.SessionDescription`: a type
("offer"/"answer") and the SDP text. -/
structure SessionDescription where
  sdpType : String
  sdp : String
deriving DecidableEq

/-- One peer connection, as created by `api.NewPeerConnection` in the
handlers: a session id plus the descriptions set so far. -/
structure PeerConnection where
  sid : Nat
  remoteDescription : Option SessionDescription
  localDescription : Option SessionDescription
deriving DecidableEq

/-- Modelled from the spec: `SetRemoteDescription` parses the offer with the
repository's SDP parser (outside `src/`); the spec fixes only that the offer
must be a non-empty well-formed description, so the model treats exactly the
empty string as malformed. -/
def offerWellFormed (offer : String) : Bool :=
  !offer.isEmpty

/-- Modelled from the spec: blocking on `GatheringCompletePromise` and then
reading `LocalDescription()` (repository code outside `src/`) yields the
answer with all reachable local candidates enumerated; gathering appends one
candidate attribute line per discovered candidate. -/
def gatherCandidates (d : SessionDescription) (cands : List String) : SessionDescription :=
  { d with sdp := cands.foldl (fun s c => s ++ "a=candidate:" ++ c ++ "\r\n") d.sdp }

/-- The observable steps `writeAnswer` performs, in program order. -/
inductive NegEvent
  | setRemote
  | createAnswerEv
  | setLocal
  | gatherCompleteWait
  | writeLocationHeader (path : String)
  | writeStatus (code : Nat)
  | writeBody (sdp : String)
  | panicEvent (msg : String)
deriving DecidableEq

/-- The HTTP response a handler produced, when it produced one. -/
structure HTTPResponse where
  headers : List (String × String)
  status : Option Nat
  body : String
deriving DecidableEq

/-- How a handler invocation ended: a written response, or a Go `panic`
(which in this program is process-level, not session-level). -/
inductive HandlerOutcome
  | ok (resp : HTTPResponse)
  | panicked (msg : String)
deriving DecidableEq

/-- The result of `writeAnswer`: the final peer connection, the ordered trace
of observable steps, and the outcome. -/
structure NegotiationResult where
  finalPC : PeerConnection
  trace : List NegEvent
  outcome : HandlerOutcome
deriving DecidableEq

/-- `writeAnswer` from `main.go`: set the remote description from the offer
(panicking if it fails to parse), create the answer, set it as local
description, block on the gathering-complete channel, then write the
`Location` header, status 201, and the gathered local description SDP as the
body.  `baseAnswer` stands for the SDP text `CreateAnswer` produces before
candidates are gathered, and `candidates` for the candidates ICE discovery
will yield. -/
def writeAnswer (pc : PeerConnection) (offer path baseAnswer : String)
    (candidates : List String) : NegotiationResult :=
  if offerWellFormed offer then
    let pc1 := { pc with remoteDescription := some { sdpType := "offer", sdp := offer } }
    let answer : SessionDescription := { sdpType := "answer", sdp := baseAnswer }
    let pc2 := { pc1 with localDescription := some answer }
    let finalDesc := gatherCandidates answer candidates
    let pc3 := { pc2 with localDescription := some finalDesc }
    { finalPC := pc3,
      trace := [.setRemote, .createAnswerEv, .setLocal, .gatherCompleteWait,
                .writeLocationHeader path, .writeStatus 201, .writeBody finalDesc.sdp],
      outcome := .ok { headers := [("Location", path)], status := some 201,
                       body := finalDesc.sdp } }
  else
    { finalPC := pc,
      trace := [.setRemote, .panicEvent "SetRemoteDescription"],
      outcome := .panicked "SetRemoteDescription" }

/-- Checks that in a trace every `writeBody` event is preceded by a
`gatherCompleteWait` event; the flag records whether the wait has already
been seen. -/
def writesAfterGather : List NegEvent → Bool → Bool
  | [], _ => true
  | .gatherCompleteWait :: rest, _ => writesAfterGather rest true
  | .writeBody _ :: rest, seen => seen && writesAfterGather rest seen
  | _ :: rest, seen => writesAfterGather rest seen

/-- The whole server's state: the single shared relay track (`videoTrack`),
the number of peer connections created so far (also used as the next session
id), and the ids of the sessions each handler has successfully negotiated. -/
structure ServerState where
  relay : RelayTrack
  createdSessions : Nat
  publisherSessions : List Nat
  subscriberSessions : List Nat
deriving DecidableEq

/-- The codec list `whipHandler` registers on its `MediaEngine`: only H264 at
clock rate 90000, payload type 96 (`mediaEngine.RegisterCodec` call). -/
def whipMediaEngineCodecs : List RTPCodecParameters :=
  [{ capability := { mimeType := mimeTypeH264, clockRate := 90000, channels := 0,
                     sdpFmtpLine := "" },
     payloadType := 96 }]

/-- The global `videoTrack` created once in `main`:
`NewTrackLocalStaticRTP(RTPCodecCapability{MimeType: MimeTypeH264}, "video", "pion")`
(all other capability fields at their zero values), with no consumers yet. -/
def initialVideoTrack : RelayTrack :=
  { codec := { mimeType := mimeTypeH264, clockRate := 0, channels := 0, sdpFmtpLine := "" },
    trackID := "video",
    streamID := "pion",
    consumers := [] }

/-- The server state right after `main` has created `videoTrack`. -/
def initialState : ServerState :=
  { relay := initialVideoTrack,
    createdSessions := 0,
    publisherSessions := [],
    subscriberSessions := [] }

/-- What one handler invocation produced: the new server state, the
negotiation trace, and the outcome. -/
structure HandlerResult where
  state : ServerState
  trace : List NegEvent
  outcome : HandlerOutcome
deriving DecidableEq

/-- `whipHandler` from `main.go`: read the offer, build a media engine with
only the H264 codec, build the interceptor pipeline, create a peer connection
(before the offer is ever parsed), add a video transceiver, install the
`OnTrack` forwarding loop, and call `writeAnswer` with path "/whip".  There is
no check whatsoever against an already-active publisher.  On a `writeAnswer`
panic the peer connection has been created but no response is written. -/
def whipHandler (st : ServerState) (offer baseAnswer : String)
    (candidates : List String) : HandlerResult :=
  let sid := st.createdSessions
  let pc : PeerConnection := { sid := sid, remoteDescription := none, localDescription := none }
  let st1 := { st with createdSessions := st.createdSessions + 1 }
  let r := writeAnswer pc offer "/whip" baseAnswer candidates
  match r.outcome with
  | .ok resp =>
    { state := { st1 with publisherSessions := st1.publisherSessions ++ [sid] },
      trace := r.trace,
      outcome := .ok resp }
  | .panicked m =>
    { state := st1, trace := r.trace, outcome := .panicked m }

/-- `whepHandler` from `main.go`: read the offer, build the interceptor
pipeline (packet dump and sender reports), create a peer connection, call
`AddTrack(videoTrack)` — binding the new session as a consumer of the one
shared relay track once negotiation succeeds — start the RTCP drain
goroutine, and call `writeAnswer` with path "/whep". -/
def whepHandler (st : ServerState) (offer baseAnswer : String)
    (candidates : List String) : HandlerResult :=
  let sid := st.createdSessions
  let pc : PeerConnection := { sid := sid, remoteDescription := none, localDescription := none }
  let st1 := { st with createdSessions := st.createdSessions + 1 }
  let r := writeAnswer pc offer "/whep" baseAnswer candidates
  match r.outcome with
  | .ok resp =>
    { state := { st1 with relay := st1.relay.registerConsumer sid,
                          subscriberSessions := st1.subscriberSessions ++ [sid] },
      trace := r.trace,
      outcome := .ok resp }
  | .panicked m =>
    { state := st1, trace := r.trace, outcome := .panicked m }

/-- ICE connection states, as in `webrtc.ICEConnectionState`. -/
inductive ICEConnectionState
  | stateNew
  | checking
  | connected
  | completed
  | disconnected
  | failed
  | closed
deriving DecidableEq

/-- Modelled from the spec: `PeerConnection.Close` (repository code outside
`src/`) releases the session's resources and undoes its registrations — a
WHEP session's sender unbinds from the relay track's consumer set, and the
session leaves the publisher/subscriber lists.  Other sessions and the rest
of the relay track are untouched. -/
def closePeerConnection (st : ServerState) (sid : Nat) : ServerState :=
  { st with relay := st.relay.deregisterConsumer sid,
            publisherSessions := st.publisherSessions.filter (fun s => s != sid),
            subscriberSessions := st.subscriberSessions.filter (fun s => s != sid) }

/-- The `OnICEConnectionStateChange` callback `writeAnswer` installs: on a
transition to `Failed` it calls `peerConnection.Close()`; every other state
only gets logged. -/
def onICEConnectionStateChange (st : ServerState) (sid : Nat)
    (s : ICEConnectionState) : ServerState :=
  if s = ICEConnectionState.failed then closePeerConnection st sid else st

/-- One result of `track.ReadRTP()` (or `receiver.ReadRTCP()`): a packet or a
read error. -/
inductive ReadResult
  | packet (p : RTPPacket)
  | readError (e : String)
deriving DecidableEq

/-- How one of the background loops left off on the inputs supplied so far. -/
inductive LoopResult
  | blocked
  | returned
  | panicked (msg : String)
deriving DecidableEq

/-- The `OnTrack` forwarding loop of `whipHandler`: read a packet — on a read
error `panic`; forward it to `videoTrack.WriteRTP` — on a write error
`panic`; otherwise loop.  `writeFailure` gives the error `WriteRTP` reports
on a packet, if any.  Returns the relay track as left behind and how the loop
ended on the given input sequence. -/
def whipOnTrackLoop (writeFailure : RTPPacket → Option String) :
    RelayTrack → List ReadResult → RelayTrack × LoopResult
  | relay, [] => (relay, .blocked)
  | relay, .readError e :: _ => (relay, .panicked e)
  | relay, .packet p :: rest =>
    match writeFailure p with
    | some e => (relay, .panicked e)
    | none => whipOnTrackLoop writeFailure (relay.writeRTP p) rest

/-- The RTCP drain goroutine of `whipHandler`: `receiver.ReadRTCP()` in a
loop, `panic` on any error (`none` stands for a successful read). -/
def whipRTCPDrainLoop : List (Option String) → LoopResult
  | [] => .blocked
  | none :: rest => whipRTCPDrainLoop rest
  | some e :: _ => .panicked e

/-- The RTCP drain goroutine of `whepHandler`: `rtpSender.Read(rtcpBuf)` in a
loop; on any error the goroutine simply `return`s. -/
def whepRTCPDrainLoop : List (Option String) → LoopResult
  | [] => .blocked
  | none :: rest => whepRTCPDrainLoop rest
  | some _ :: _ => .returned

/-- A media writer, per the `media.Writer` interface of
`pkg/media/media.go`: a closed flag and the resources it still holds. -/
structure MediaWriter where
  closed : Bool
  heldResources : Nat
deriving DecidableEq

/-- Modelled from the spec: `media.Writer` is an interface whose
implementations live outside `src/`; its contract (the interface doc note
"Close implementation must be idempotent" and the spec) is that `Close`
releases the held resources and that repeated calls after the first success
return success without releasing anything again. -/
def MediaWriter.close (w : MediaWriter) : MediaWriter × Option String :=
  if w.closed then (w, none)
  else ({ closed := true, heldResources := 0 }, none)

theorem any_filter_ne (l : List Consumer) (i : Nat) :
    ((l.filter fun c => c.cid != i).any fun c => c.cid == i) = false := by
  simp only [List.any_eq_false]
  intro x hx
  have h2 := (List.mem_filter.mp hx).2
  simp only [bne_iff_ne, ne_eq] at h2
  simp [h2]

/-- C1: for every offer that negotiates successfully (POST /whip or
POST /whep), the trace of `writeAnswer` writes the response body only after
the gathering-complete wait, and the body — like the final local
description — is the answer as gathered, candidates included. -/
theorem answer_written_after_gathering (st : ServerState) (pc : PeerConnection)
    (offer path baseAnswer : String) (candidates : List String)
    (h : offerWellFormed offer = true) :
    writesAfterGather (whipHandler st offer baseAnswer candidates).trace false = true ∧
    writesAfterGather (whepHandler st offer baseAnswer candidates).trace false = true ∧
    (writeAnswer pc offer path baseAnswer candidates).finalPC.localDescription =
      some (gatherCandidates { sdpType := "answer", sdp := baseAnswer } candidates) ∧
    (writeAnswer pc offer path baseAnswer candidates).outcome =
      HandlerOutcome.ok
        { headers := [("Location", path)], status := some 201,
          body := (gatherCandidates { sdpType := "answer", sdp := baseAnswer } candidates).sdp } := by
  refine ⟨?_, ?_, ?_, ?_⟩ <;>
    simp [whipHandler, whepHandler, writeAnswer, h, writesAfterGather]

/-- Witness for C1 at a concrete offer, path, base answer and candidate. -/
theorem answer_written_after_gathering_witness :
    offerWellFormed "v=0" = true ∧
    (writesAfterGather (whipHandler initialState "v=0" "base" ["c1"]).trace false = true ∧
     writesAfterGather (whepHandler initialState "v=0" "base" ["c1"]).trace false = true ∧
     (writeAnswer (PeerConnection.mk 0 none none) "v=0" "/whip" "base" ["c1"]).finalPC.localDescription =
       some (gatherCandidates { sdpType := "answer", sdp := "base" } ["c1"]) ∧
     (writeAnswer (PeerConnection.mk 0 none none) "v=0" "/whip" "base" ["c1"]).outcome =
       HandlerOutcome.ok
         { headers := [("Location", "/whip")], status := some 201,
           body := (gatherCandidates { sdpType := "answer", sdp := "base" } ["c1"]).sdp }) :=
  ⟨by decide,
   answer_written_after_gathering initialState (PeerConnection.mk 0 none none)
     "v=0" "/whip" "base" ["c1"] (by decide)⟩

/-- C2: a subscriber that registers on the relay track after packets `pre`
were written receives exactly the packets written afterwards (`post`), never
any of `pre`: no backfill or replay. -/
theorem subscriber_no_backfill (t : RelayTrack) (i : Nat)
    (pre post : List RTPPacket) (h : t.hasConsumer i = false) :
    (((t.writeAll pre).registerConsumer i).writeAll post).receivedOf i = some post := by
  have h1 : (t.writeAll pre).hasConsumer i = false := by
    rw [hasConsumer_writeAll]
    exact h
  rw [receivedOf_writeAll, receivedOf_registerConsumer_fresh _ _ h1]
  simp

/-- Witness for C2: the spec scenario — P1..P5 written, subscriber B
registers after P2 and receives exactly P3, P4, P5. -/
theorem subscriber_no_backfill_witness :
    initialVideoTrack.hasConsumer 7 = false ∧
    (((initialVideoTrack.writeAll
          [RTPPacket.mk 1 [], RTPPacket.mk 2 []]).registerConsumer 7).writeAll
        [RTPPacket.mk 3 [], RTPPacket.mk 4 [], RTPPacket.mk 5 []]).receivedOf 7 =
      some [RTPPacket.mk 3 [], RTPPacket.mk 4 [], RTPPacket.mk 5 []] :=
  ⟨by decide,
   subscriber_no_backfill initialVideoTrack 7
     [RTPPacket.mk 1 [], RTPPacket.mk 2 []]
     [RTPPacket.mk 3 [], RTPPacket.mk 4 [], RTPPacket.mk 5 []] (by decide)⟩

/-- C7: every successful negotiation responds with status 201, a `Location`
header equal to the request path ("/whip" for whip, "/whep" for whep), and
the raw gathered answer SDP as the body. -/
theorem success_response_shape (st : ServerState) (offer baseAnswer : String)
    (candidates : List String) (h : offerWellFormed offer = true) :
    (whipHandler st offer baseAnswer candidates).outcome =
      HandlerOutcome.ok
        { headers := [("Location", "/whip")], status := some 201,
          body := (gatherCandidates { sdpType := "answer", sdp := baseAnswer } candidates).sdp } ∧
    (whepHandler st offer baseAnswer candidates).outcome =
      HandlerOutcome.ok
        { headers := [("Location", "/whep")], status := some 201,
          body := (gatherCandidates { sdpType := "answer", sdp := baseAnswer } candidates).sdp } := by
  constructor <;> simp [whipHandler, whepHandler, writeAnswer, h]

/-- Witness for C7 at a concrete offer and answer. -/
theorem success_response_shape_witness :
    offerWellFormed "v=0 offer" = true ∧
    ((whipHandler initialState "v=0 offer" "theAnswer" []).outcome =
      HandlerOutcome.ok
        { headers := [("Location", "/whip")], status := some 201,
          body := (gatherCandidates { sdpType := "answer", sdp := "theAnswer" } []).sdp } ∧
     (whepHandler initialState "v=0 offer" "theAnswer" []).outcome =
      HandlerOutcome.ok
        { headers := [("Location", "/whep")], status := some 201,
          body := (gatherCandidates { sdpType := "answer", sdp := "theAnswer" } []).sdp }) :=
  ⟨by decide,
   success_response_shape initialState "v=0 offer" "theAnswer" [] (by decide)⟩

/-- C8: closing a media writer a second time after a first successful close
returns success again and releases nothing twice — the state after the
second close is the state after the first. -/
theorem media_writer_close_idempotent (w : MediaWriter) :
    (w.close).2 = none ∧ ((w.close).1).close = ((w.close).1, none) := by
  by_cases h : w.closed
  · constructor <;> simp [MediaWriter.close, h]
  · constructor <;> simp [MediaWriter.close, h]

/-- C9: the WHEP RTCP drain goroutine terminates by returning as soon as a
read errors, and on no input sequence does it ever panic. -/
theorem whep_drain_returns_on_error (reads : List (Option String)) (e : String)
    (h : some e ∈ reads) :
    whepRTCPDrainLoop reads = LoopResult.returned ∧
    ∀ rs m, whepRTCPDrainLoop rs ≠ LoopResult.panicked m := by
  constructor
  · induction reads with
    | nil => cases h
    | cons r rs ih =>
      cases r with
      | none =>
        simp only [List.mem_cons] at h
        rcases h with h | h
        · exact absurd h (by simp)
        · exact ih h
      | some x => rfl
  · intro rs m
    induction rs with
    | nil => simp [whepRTCPDrainLoop]
    | cons r rs ih =>
      cases r with
      | none => simpa [whepRTCPDrainLoop] using ih
      | some x => simp [whepRTCPDrainLoop]

/-- Witness for C9: a successful read followed by an erroring read makes the
drain loop return. -/
theorem whep_drain_returns_on_error_witness :
    some "read failed" ∈ [none, some "read failed"] ∧
    (whepRTCPDrainLoop [none, some "read failed"] = LoopResult.returned ∧
     ∀ rs m, whepRTCPDrainLoop rs ≠ LoopResult.panicked m) :=
  ⟨by simp,
   whep_drain_returns_on_error [none, some "read failed"] "read failed" (by simp)⟩

/-- Counterexample to C3: a second POST /whip arriving while a publisher is
already active is not rejected — it is accepted with a 201 answer exactly
like the first, and afterwards two publisher sessions are live at once. -/
theorem second_whip_accepted_counterexample :
    (whipHandler (whipHandler initialState "offerA" "answerA" []).state
        "offerB" "answerB" []).outcome =
      HandlerOutcome.ok
        { headers := [("Location", "/whip")], status := some 201, body := "answerB" } ∧
    (whipHandler (whipHandler initialState "offerA" "answerA" []).state
        "offerB" "answerB" []).state.publisherSessions = [0, 1] := by
  decide

/-- C3 (amended): the code enforces no producer slot at all — every POST
/whip carrying a well-formed offer is accepted with a 201 answer and adds one
more publisher session forwarding into the same shared relay track,
regardless of how many publishers are already active. -/
theorem whip_accepts_any_publisher (st : ServerState) (offer baseAnswer : String)
    (candidates : List String) (h : offerWellFormed offer = true) :
    (whipHandler st offer baseAnswer candidates).outcome =
      HandlerOutcome.ok
        { headers := [("Location", "/whip")], status := some 201,
          body := (gatherCandidates { sdpType := "answer", sdp := baseAnswer } candidates).sdp } ∧
    (whipHandler st offer baseAnswer candidates).state.publisherSessions =
      st.publisherSessions ++ [st.createdSessions] ∧
    (whipHandler st offer baseAnswer candidates).state.relay = st.relay := by
  refine ⟨?_, ?_, ?_⟩ <;> simp [whipHandler, writeAnswer, h]

/-- Witness for the amended C3: with publisher 0 already active, offer B is
still accepted and publisher 1 is added alongside it. -/
theorem whip_accepts_any_publisher_witness :
    offerWellFormed "offerB" = true ∧
    ((whipHandler (ServerState.mk initialVideoTrack 1 [0] []) "offerB" "answerB" []).outcome =
      HandlerOutcome.ok
        { headers := [("Location", "/whip")], status := some 201,
          body := (gatherCandidates { sdpType := "answer", sdp := "answerB" } []).sdp } ∧
     (whipHandler (ServerState.mk initialVideoTrack 1 [0] []) "offerB" "answerB" []).state.publisherSessions =
       [0] ++ [1] ∧
     (whipHandler (ServerState.mk initialVideoTrack 1 [0] []) "offerB" "answerB" []).state.relay =
       initialVideoTrack) :=
  ⟨by decide,
   whip_accepts_any_publisher (ServerState.mk initialVideoTrack 1 [0] [])
     "offerB" "answerB" [] (by decide)⟩

/-- Counterexample to C4: a WriteRTP failure on a single packet does not
keep the read loop alive with session-local handling — the loop panics at
once (a process-level fault), and the later packets are never forwarded. -/
theorem forwarding_error_kills_loop_counterexample :
    whipOnTrackLoop
        (fun p => if p.sequenceNumber == 1 then some "relay write failed" else none)
        initialVideoTrack
        [ReadResult.packet (RTPPacket.mk 1 []), ReadResult.packet (RTPPacket.mk 2 []),
         ReadResult.packet (RTPPacket.mk 3 [])] =
      (initialVideoTrack, LoopResult.panicked "relay write failed") := by
  decide

/-- C4 (amended): every post-negotiation error in the publisher — a packet
read failure, a WriteRTP forwarding failure on even a single packet, or an
RTCP read failure — makes the owning loop panic immediately (Go panics here
are process-level, not session-local teardown), terminating the read loop. -/
theorem whip_loop_errors_panic (relay : RelayTrack)
    (writeFailure : RTPPacket → Option String) (p : RTPPacket)
    (rest : List ReadResult) (e msg : String) (rtcpReads : List (Option String))
    (h1 : writeFailure p = some e) (h2 : some msg ∈ rtcpReads) :
    whipOnTrackLoop writeFailure relay (ReadResult.packet p :: rest) =
      (relay, LoopResult.panicked e) ∧
    whipOnTrackLoop writeFailure relay (ReadResult.readError e :: rest) =
      (relay, LoopResult.panicked e) ∧
    (∃ m, whipRTCPDrainLoop rtcpReads = LoopResult.panicked m) := by
  refine ⟨?_, rfl, ?_⟩
  · simp [whipOnTrackLoop, h1]
  · induction rtcpReads with
    | nil => cases h2
    | cons r rs ih =>
      cases r with
      | none =>
        simp only [List.mem_cons] at h2
        rcases h2 with h2 | h2
        · exact absurd h2 (by simp)
        · exact ih h2
      | some x => exact ⟨x, rfl⟩

/-- Witness for the amended C4 at a concrete failing packet and RTCP error. -/
theorem whip_loop_errors_panic_witness :
    (fun q : RTPPacket => if q.sequenceNumber == 1 then some "sink closed" else none)
        (RTPPacket.mk 1 []) = some "sink closed" ∧
    some "rtcp broken" ∈ [some "rtcp broken"] ∧
    (whipOnTrackLoop
        (fun q => if q.sequenceNumber == 1 then some "sink closed" else none)
        initialVideoTrack
        (ReadResult.packet (RTPPacket.mk 1 []) :: [ReadResult.packet (RTPPacket.mk 2 [])]) =
      (initialVideoTrack, LoopResult.panicked "sink closed") ∧
     whipOnTrackLoop
        (fun q => if q.sequenceNumber == 1 then some "sink closed" else none)
        initialVideoTrack
        (ReadResult.readError "sink closed" :: [ReadResult.packet (RTPPacket.mk 2 [])]) =
      (initialVideoTrack, LoopResult.panicked "sink closed") ∧
     (∃ m, whipRTCPDrainLoop [some "rtcp broken"] = LoopResult.panicked m)) :=
  ⟨by decide, by simp,
   whip_loop_errors_panic initialVideoTrack
     (fun q => if q.sequenceNumber == 1 then some "sink closed" else none)
     (RTPPacket.mk 1 []) [ReadResult.packet (RTPPacket.mk 2 [])]
     "sink closed" "rtcp broken" [some "rtcp broken"] (by decide) (by simp)⟩

/-- Counterexample to C5: an empty offer body does not produce a synchronous
MalformedOffer error with no session created — the handler panics (no HTTP
response at all) and a peer-connection session has already been created; only
the relay track is indeed untouched. -/
theorem malformed_offer_counterexample :
    (whipHandler initialState "" "answer" []).outcome =
      HandlerOutcome.panicked "SetRemoteDescription" ∧
    (whipHandler initialState "" "answer" []).state.createdSessions = 1 ∧
    (whipHandler initialState "" "answer" []).state.relay = initialVideoTrack := by
  decide

/-- C5 (amended): for every malformed offer body, `SetRemoteDescription`
fails and the handler panics instead of returning an error response; a peer
connection was already created before parsing; the relay track and the
session registries are unchanged. -/
theorem malformed_offer_panics (st : ServerState) (offer baseAnswer : String)
    (candidates : List String) (h : offerWellFormed offer = false) :
    (whipHandler st offer baseAnswer candidates).outcome =
      HandlerOutcome.panicked "SetRemoteDescription" ∧
    (whipHandler st offer baseAnswer candidates).state =
      { st with createdSessions := st.createdSessions + 1 } ∧
    (whepHandler st offer baseAnswer candidates).outcome =
      HandlerOutcome.panicked "SetRemoteDescription" ∧
    (whepHandler st offer baseAnswer candidates).state =
      { st with createdSessions := st.createdSessions + 1 } := by
  refine ⟨?_, ?_, ?_, ?_⟩ <;> simp [whipHandler, whepHandler, writeAnswer, h]

/-- Witness for the amended C5 at the empty offer. -/
theorem malformed_offer_panics_witness :
    offerWellFormed "" = false ∧
    ((whipHandler initialState "" "a" []).outcome =
      HandlerOutcome.panicked "SetRemoteDescription" ∧
     (whipHandler initialState "" "a" []).state =
      { initialState with createdSessions := initialState.createdSessions + 1 } ∧
     (whepHandler initialState "" "a" []).outcome =
      HandlerOutcome.panicked "SetRemoteDescription" ∧
     (whepHandler initialState "" "a" []).state =
      { initialState with createdSessions := initialState.createdSessions + 1 }) :=
  ⟨by decide, malformed_offer_panics initialState "" "a" [] (by decide)⟩

/-- C6: on an ICE connectivity transition to Failed, the installed callback
closes the owning session: its consumer leaves the relay track and it leaves
both session registries, while every other consumer (with its delivered
packets), the track's codec, and every other session are untouched. -/
theorem ice_failed_closes_owning_session (st : ServerState) (sid : Nat)
    (s : ICEConnectionState) (h : s = ICEConnectionState.failed) :
    (onICEConnectionStateChange st sid s).relay.hasConsumer sid = false ∧
    (∀ c, c ∈ (onICEConnectionStateChange st sid s).relay.consumers →
      c ∈ st.relay.consumers) ∧
    (∀ c, c ∈ st.relay.consumers → c.cid ≠ sid →
      c ∈ (onICEConnectionStateChange st sid s).relay.consumers) ∧
    (onICEConnectionStateChange st sid s).relay.codec = st.relay.codec ∧
    (onICEConnectionStateChange st sid s).publisherSessions =
      st.publisherSessions.filter (fun x => x != sid) ∧
    (onICEConnectionStateChange st sid s).subscriberSessions =
      st.subscriberSessions.filter (fun x => x != sid) := by
  subst h
  simp only [onICEConnectionStateChange, if_pos, closePeerConnection,
    RelayTrack.deregisterConsumer]
  refine ⟨any_filter_ne st.relay.consumers sid, ?_, ?_, by simp, by simp, by simp⟩
  · intro c hc
    exact List.mem_of_mem_filter hc
  · intro c hc hne
    exact List.mem_filter.mpr ⟨hc, by simpa using hne⟩

/-- Witness for C6: a state with a publisher 0 and subscribers 1 and 2;
session 1 fails and is removed while consumer 2 keeps its packets. -/
theorem ice_failed_closes_owning_session_witness :
    (ICEConnectionState.failed = ICEConnectionState.failed) ∧
    ((onICEConnectionStateChange
        (ServerState.mk
          (RelayTrack.mk (RTPCodecCapability.mk mimeTypeH264 0 0 "") "video" "pion"
            [Consumer.mk 1 [], Consumer.mk 2 [RTPPacket.mk 9 []]])
          3 [0] [1, 2])
        1 ICEConnectionState.failed).relay.hasConsumer 1 = false ∧
     (∀ c, c ∈ (onICEConnectionStateChange
        (ServerState.mk
          (RelayTrack.mk (RTPCodecCapability.mk mimeTypeH264 0 0 "") "video" "pion"
            [Consumer.mk 1 [], Consumer.mk 2 [RTPPacket.mk 9 []]])
          3 [0] [1, 2])
        1 ICEConnectionState.failed).relay.consumers →
       c ∈ [Consumer.mk 1 [], Consumer.mk 2 [RTPPacket.mk 9 []]]) ∧
     (∀ c, c ∈ [Consumer.mk 1 [], Consumer.mk 2 [RTPPacket.mk 9 []]] → c.cid ≠ 1 →
       c ∈ (onICEConnectionStateChange
        (ServerState.mk
          (RelayTrack.mk (RTPCodecCapability.mk mimeTypeH264 0 0 "") "video" "pion"
            [Consumer.mk 1 [], Consumer.mk 2 [RTPPacket.mk 9 []]])
          3 [0] [1, 2])
        1 ICEConnectionState.failed).relay.consumers) ∧
     (onICEConnectionStateChange
        (ServerState.mk
          (RelayTrack.mk (RTPCodecCapability.mk mimeTypeH264 0 0 "") "video" "pion"
            [Consumer.mk 1 [], Consumer.mk 2 [RTPPacket.mk 9 []]])
          3 [0] [1, 2])
        1 ICEConnectionState.failed).relay.codec =
       RTPCodecCapability.mk mimeTypeH264 0 0 "" ∧
     (onICEConnectionStateChange
        (ServerState.mk
          (RelayTrack.mk (RTPCodecCapability.mk mimeTypeH264 0 0 "") "video" "pion"
            [Consumer.mk 1 [], Consumer.mk 2 [RTPPacket.mk 9 []]])
          3 [0] [1, 2])
        1 ICEConnectionState.failed).publisherSessions =
       List.filter (fun x => x != 1) [0] ∧
     (onICEConnectionStateChange
        (ServerState.mk
          (RelayTrack.mk (RTPCodecCapability.mk mimeTypeH264 0 0 "") "video" "pion"
            [Consumer.mk 1 [], Consumer.mk 2 [RTPPacket.mk 9 []]])
          3 [0] [1, 2])
        1 ICEConnectionState.failed).subscriberSessions =
       List.filter (fun x => x != 1) [1, 2]) :=
  ⟨rfl,
   ice_failed_closes_owning_session
     (ServerState.mk
       (RelayTrack.mk (RTPCodecCapability.mk mimeTypeH264 0 0 "") "video" "pion"
         [Consumer.mk 1 [], Consumer.mk 2 [RTPPacket.mk 9 []]])
       3 [0] [1, 2])
     1 ICEConnectionState.failed rfl⟩

/-- C10: the process has exactly one relay track — the `videoTrack` created
in `main` with H264 capability; the whip media engine registers only the
H264 codec at payload type 96; the whip handler leaves the relay untouched,
and every whep handler invocation attaches its new session as a consumer of
that same shared track. -/
theorem single_h264_relay_track (st : ServerState) (offer baseAnswer : String)
    (candidates : List String) (h : offerWellFormed offer = true) :
    initialState.relay = initialVideoTrack ∧
    initialVideoTrack.codec.mimeType = mimeTypeH264 ∧
    whipMediaEngineCodecs.length = 1 ∧
    (∀ c, c ∈ whipMediaEngineCodecs →
      c.capability.mimeType = mimeTypeH264 ∧ c.payloadType = 96) ∧
    (whipHandler st offer baseAnswer candidates).state.relay = st.relay ∧
    (whepHandler st offer baseAnswer candidates).state.relay =
      st.relay.registerConsumer st.createdSessions := by
  refine ⟨rfl, rfl, rfl, ?_, ?_, ?_⟩
  · intro c hc
    simp only [whipMediaEngineCodecs, List.mem_singleton] at hc
    subst hc
    exact ⟨rfl, rfl⟩
  · simp [whipHandler, writeAnswer, h]
  · simp [whepHandler, writeAnswer, h]

/-- Witness for C10 at a concrete offer. -/
theorem single_h264_relay_track_witness :
    offerWellFormed "v=0 w" = true ∧
    (initialState.relay = initialVideoTrack ∧
     initialVideoTrack.codec.mimeType = mimeTypeH264 ∧
     whipMediaEngineCodecs.length = 1 ∧
     (∀ c, c ∈ whipMediaEngineCodecs →
       c.capability.mimeType = mimeTypeH264 ∧ c.payloadType = 96) ∧
     (whipHandler initialState "v=0 w" "ans" []).state.relay = initialState.relay ∧
     (whepHandler initialState "v=0 w" "ans" []).state.relay =
       initialState.relay.registerConsumer initialState.createdSessions) :=
  ⟨by decide, single_h264_relay_track initialState "v=0 w" "ans" [] (by decide)⟩

end WhipWhep
